import Mathlib

/-!
A shallow embedding of the metadata-extraction and sidecar processors of the
immich media server (metadata-extraction.processor.ts).  JavaScript values are
modelled with explicit option types: a tag that is absent, `null` or
`undefined` is `none`.  Each definition mirrors one function or block of the
source file; comments cite the TypeScript symbol being embedded.
-/

/-- A raw metadata tag value as produced by the exif tool: a string, a number
(modelled as a rational), an array of numbers (seen for ISO in sidecar XMP
files), or a structured date-time with an optional zone (the ExifDateTime
class of exiftool-vendored). -/
inductive TagValue where
  | str (s : String)
  | num (q : Rat)
  | arr (l : List Rat)
  | edt (instant : Int) (zone : Option String)
deriving DecidableEq

/-- JavaScript truthiness of an optional tag value: `null`/`undefined`, the
number 0 and the empty string are falsy; every other value is truthy. -/
def jsTruthy : Option TagValue → Bool
  | none => false
  | some (.str s) => !(s == "")
  | some (.num q) => !(q == 0)
  | some (.arr _) => true
  | some (.edt _ _) => true

/-- getExifProperty from extractExifInfo: walk the requested alias names in
order; for each name the sidecar tag set is consulted first and the embedded
tag set second (the TypeScript expression
sidecarExifData?.[property] ?? mediaExifData?.[property]); the first value
that is neither null nor undefined is returned, otherwise null. -/
def getExifProperty (sidecarData mediaData : String → Option TagValue) :
    List String → Option TagValue
  | [] => none
  | p :: rest =>
    match sidecarData p with
    | some v => some v
    | none =>
      match mediaData p with
      | some v => some v
      | none => getExifProperty sidecarData mediaData rest

/-- Call-site pattern getExifProperty(...) ?? fallback (used for the date
fields, where the fallback is the filesystem timestamp of the asset). -/
def getExifPropertyOrFallback (sidecarData mediaData : String → Option TagValue)
    (props : List String) (fallback : TagValue) : TagValue :=
  (getExifProperty sidecarData mediaData props).getD fallback

theorem getExifProperty_skip_unpopulated (sidecarData mediaData : String → Option TagValue)
    (pre rest : List String)
    (hpre : ∀ p ∈ pre, sidecarData p = none ∧ mediaData p = none) :
    getExifProperty sidecarData mediaData (pre ++ rest) =
      getExifProperty sidecarData mediaData rest := by
  induction pre with
  | nil => rfl
  | cons p ps ih =>
    have hp := hpre p (by simp)
    have hps : ∀ q ∈ ps, sidecarData q = none ∧ mediaData q = none := by
      intro q hq
      exact hpre q (by simp [hq])
    simp [getExifProperty, hp.1, hp.2, ih hps]

theorem getExifProperty_all_unpopulated (sidecarData mediaData : String → Option TagValue)
    (props : List String)
    (h : ∀ p ∈ props, sidecarData p = none ∧ mediaData p = none) :
    getExifProperty sidecarData mediaData props = none := by
  have := getExifProperty_skip_unpopulated sidecarData mediaData props [] h
  simpa [getExifProperty] using this

/-- C1: for any requested field the sidecar value wins over the embedded value
and the embedded value wins over the filesystem fallback; when a field is
requested through an ordered list of alias names, the lookup short-circuits on
the first alias populated in either source (so aliases after it are never
consulted), and in particular whenever the sidecar defines the field F and the
embedded source also defines F, the merged value of F is the sidecar value. -/
theorem getExifProperty_precedence (sidecarData mediaData : String → Option TagValue)
    (pre post : List String) (F : String)
    (hpre : ∀ p ∈ pre, sidecarData p = none ∧ mediaData p = none) :
    (∀ v w, sidecarData F = some v → mediaData F = some w →
      getExifProperty sidecarData mediaData (pre ++ F :: post) = some v)
    ∧ (∀ v, sidecarData F = none → mediaData F = some v →
      getExifProperty sidecarData mediaData (pre ++ F :: post) = some v)
    ∧ (∀ (props : List String) (fallback : TagValue),
      (∀ p ∈ props, sidecarData p = none ∧ mediaData p = none) →
      getExifPropertyOrFallback sidecarData mediaData props fallback = fallback) := by
  refine ⟨?_, ?_, ?_⟩
  · intro v w hs _
    rw [getExifProperty_skip_unpopulated sidecarData mediaData pre _ hpre]
    simp [getExifProperty, hs]
  · intro v hs hm
    rw [getExifProperty_skip_unpopulated sidecarData mediaData pre _ hpre]
    simp [getExifProperty, hs, hm]
  · intro props fallback hall
    unfold getExifPropertyOrFallback
    rw [getExifProperty_all_unpopulated sidecarData mediaData props hall]
    rfl

/-- Witness for C1 at a concrete pair of tag sets: the field DateTimeOriginal
is requested after the unpopulated alias CreateDate is skipped, both sources
define it, and the sidecar value is returned. -/
theorem getExifProperty_precedence_witness :
    getExifProperty
      (fun p => if p = "DateTimeOriginal" then some (.str ("sidecar")) else none)
      (fun p => if p = "DateTimeOriginal" then some (.str ("embedded")) else none)
      (["CreateDate"] ++ "DateTimeOriginal" :: []) = some (.str ("sidecar")) :=
  (getExifProperty_precedence
      (fun p => if p = "DateTimeOriginal" then some (.str ("sidecar")) else none)
      (fun p => if p = "DateTimeOriginal" then some (.str ("embedded")) else none)
      ["CreateDate"] [] "DateTimeOriginal"
      (by intro p hp; simp at hp; simp [hp])).1
    (.str ("sidecar")) (.str ("embedded")) (by simp) (by simp)

/-- A JavaScript number restricted to the values that arise in the processor:
NaN, the two infinities, or a finite value modelled as an exact rational. -/
inductive JSNum where
  | nan
  | posInf
  | negInf
  | num (q : Rat)
deriving DecidableEq

/-- Leading digit run of a character list. -/
def leadingDigits (l : List Char) : List Char := l.takeWhile Char.isDigit

/-- Value of a digit string read in base 10. -/
def digitsToNat (l : List Char) : Nat :=
  l.foldl (fun n c => 10 * n + (c.toNat - Char.toNat '0')) 0

/-- JavaScript parseInt on the characters of the strings seen here (an
optional sign followed by a run of decimal digits; further characters are
ignored); `none` models the NaN result when no leading digits exist. -/
def jsParseIntChars (l : List Char) : Option Int :=
  match l with
  | '+' :: rest =>
    if (leadingDigits rest).isEmpty then none else some (digitsToNat (leadingDigits rest))
  | '-' :: rest =>
    if (leadingDigits rest).isEmpty then none else some (-(digitsToNat (leadingDigits rest) : Int))
  | l0 =>
    if (leadingDigits l0).isEmpty then none else some (digitsToNat (leadingDigits l0))

/-- Split a character list at every slash, like String.prototype.split with
the separator "/". -/
def splitSlashAux : List Char → List Char → List (List Char)
  | [], acc => [acc.reverse]
  | c :: rest, acc =>
    if c = '/' then acc.reverse :: splitSlashAux rest [] else splitSlashAux rest (c :: acc)

/-- splitOnSlash s is the list of slash-separated fields of s. -/
def splitOnSlash (s : String) : List (List Char) := splitSlashAux s.toList []

/-- JavaScript Math.round on a finite value: round half toward positive
infinity, i.e. the floor of x + 1/2. -/
def jsRound (q : Rat) : Rat := ((⌊q + 1 / 2⌋ : Int) : Rat)

/-- Frame-rate computation of extractVideoMetadata: when stream.r_frame_rate
is truthy, split it on "/"; when exactly two parts result, the recorded fps is
Math.round(parseInt(parts[0]) / parseInt(parts[1])); otherwise fps keeps its
initial null.  JavaScript division of the parsed integers yields NaN for 0/0
and a signed infinity for n/0 with n nonzero, and Math.round passes NaN and
the infinities through unchanged. -/
def computeFps (rFrameRate : Option String) : Option JSNum :=
  match rFrameRate with
  | none => none
  | some s =>
    if s = "" then none
    else
      match splitOnSlash s with
      | [a, b] =>
        match jsParseIntChars a, jsParseIntChars b with
        | some x, some y =>
          if y = 0 then
            (if x = 0 then some .nan else if x > 0 then some .posInf else some .negInf)
          else some (.num (jsRound ((x : Rat) / (y : Rat))))
        | _, _ => some .nan
      | _ => none

theorem jsRound_30000_1001 : jsRound (((30000 : Int) : Rat) / ((1001 : Int) : Rat)) = 30 := by
  unfold jsRound
  have h : ⌊((30000 : Int) : Rat) / ((1001 : Int) : Rat) + 1 / 2⌋ = (30 : Int) := by
    rw [Int.floor_eq_iff]
    constructor <;> norm_num
  rw [h]
  norm_num

/-- C4: the code records Math.round(30000/1001) = 30 for the rational string
"30000/1001", but for "0/0" it records NaN rather than null — the division by
zero is not guarded, so a non-null non-integer value (NaN) is produced,
contradicting the documented guard. -/
theorem computeFps_nan_unguarded :
    computeFps (some ("30000/1001")) = some (.num 30)
    ∧ computeFps (some ("0/0")) = some .nan
    ∧ computeFps (some ("0/0")) ≠ none := by
  refine ⟨?_, by decide, by decide⟩
  have h : computeFps (some ("30000/1001")) =
      some (.num (jsRound (((30000 : Int) : Rat) / ((1001 : Int) : Rat)))) := rfl
  rw [h, jsRound_30000_1001]

/-- An exact signed decimal "ddd.ddd" as captured by one group of the video
location pattern; its numeric value is mantissa / 10 ^ scale (parseFloat of
such a group is exact in this range). -/
structure DecNum where
  mantissa : Int
  scale : Nat
deriving DecidableEq

/-- Numeric value of a captured signed decimal group. -/
def DecNum.toRat (d : DecNum) : Rat := (d.mantissa : Rat) / ((10 : Rat) ^ d.scale)

/-- Parse one regex group [+-][0-9]+\.[0-9]+ backwards from a reversed
character list: a nonempty digit run (the fraction), a dot, a nonempty digit
run (the integer part), then a mandatory sign.  Returns the group value and
the unconsumed rest.  Because a group contains exactly one sign and one dot,
this deterministic backward scan finds exactly the groups the end-anchored
regex of the source captures. -/
def parseGroupRev (l : List Char) : Option (DecNum × List Char) :=
  let fr := l.takeWhile Char.isDigit
  let r1 := l.dropWhile Char.isDigit
  if fr.isEmpty then none
  else
    match r1 with
    | '.' :: r2 =>
      let ip := r2.takeWhile Char.isDigit
      let r3 := r2.dropWhile Char.isDigit
      if ip.isEmpty then none
      else
        match r3 with
        | '+' :: r4 =>
          some (⟨(digitsToNat ip.reverse * 10 ^ fr.length + digitsToNat fr.reverse : Nat),
            fr.length⟩, r4)
        | '-' :: r4 =>
          some (⟨-((digitsToNat ip.reverse * 10 ^ fr.length + digitsToNat fr.reverse : Nat) : Int),
            fr.length⟩, r4)
        | _ => none
    | _ => none

/-- Video location pattern for the tag "location" in extractVideoMetadata:
the regular expression ([+-][0-9]+\.[0-9]+)([+-][0-9]+\.[0-9]+)\/$ — anchored
only at the end of the string.  A successful match requires the string to end
in a slash immediately preceded by two adjacent signed decimal groups; the
two groups are captured as latitude and longitude. -/
def matchLocation2 (s : String) : Option (DecNum × DecNum) :=
  match s.toList.reverse with
  | [] => none
  | c :: r0 =>
    if c = '/' then
      match parseGroupRev r0 with
      | some (lon, r1) =>
        match parseGroupRev r1 with
        | some (lat, _) => some (lat, lon)
        | none => none
      | none => none
    else none

/-- Video location pattern for the tag com.apple.quicktime.location.ISO6709:
three signed decimal groups before the final slash; the first two captures
(latitude, longitude) are used and the altitude capture is dropped. -/
def matchLocation3 (s : String) : Option (DecNum × DecNum) :=
  match s.toList.reverse with
  | [] => none
  | c :: r0 =>
    if c = '/' then
      match parseGroupRev r0 with
      | some (_, r1) =>
        match parseGroupRev r1 with
        | some (lon, r2) =>
          match parseGroupRev r2 with
          | some (lat, _) => some (lat, lon)
          | none => none
        | none => none
      | none => none
    else none

theorem matchLocation2_none_of_no_slash (s : String) (h : s.toList.getLast? ≠ some '/') :
    matchLocation2 s = none := by
  unfold matchLocation2
  cases hrev : s.toList.reverse with
  | nil => rfl
  | cons c r =>
    have h2 : s.toList.getLast? = some c := by
      rw [← List.head?_reverse, hrev]
      rfl
    have hc : c ≠ '/' := fun he => h (he ▸ h2)
    simp [hc]

theorem matchLocation3_none_of_no_slash (s : String) (h : s.toList.getLast? ≠ some '/') :
    matchLocation3 s = none := by
  unfold matchLocation3
  cases hrev : s.toList.reverse with
  | nil => rfl
  | cons c r =>
    have h2 : s.toList.getLast? = some c := by
      rw [← List.head?_reverse, hrev]
      rfl
    have hc : c ≠ '/' := fun he => h (he ▸ h2)
    simp [hc]

/-- Counterexample to C5: a location string with an extra signed decimal field
before the two final groups still yields coordinates (the pattern has no start
anchor), contradicting the claim that extra fields yield no coordinates. -/
theorem matchLocation2_extra_fields_counterexample :
    ¬ (matchLocation2 ("+1.0+40.7128-074.0060/") = none) := by
  decide

/-- C5 amended: the trailing slash is mandatory (a string not ending in a
slash yields no coordinates, for both encodings), and the exact example
"+40.7128-074.0060/" parses to latitude 40.7128 and longitude -74.0060; but
the pattern is anchored only at the end of the string, so a string with extra
fields before the final two (resp. three) signed decimal groups still parses,
using the trailing groups. -/
theorem matchLocation_end_anchored (s : String) (h : s.toList.getLast? ≠ some '/') :
    (matchLocation2 s = none ∧ matchLocation3 s = none)
    ∧ matchLocation2 ("+40.7128-074.0060/") = some (⟨407128, 4⟩, ⟨-740060, 4⟩)
    ∧ DecNum.toRat ⟨407128, 4⟩ = 40.7128
    ∧ DecNum.toRat ⟨-740060, 4⟩ = -74.0060
    ∧ matchLocation2 ("+1.0+40.7128-074.0060/") = some (⟨407128, 4⟩, ⟨-740060, 4⟩)
    ∧ matchLocation3 ("+9.9+40.7128-074.0060+005.1/") = some (⟨407128, 4⟩, ⟨-740060, 4⟩) := by
  refine ⟨⟨matchLocation2_none_of_no_slash s h, matchLocation3_none_of_no_slash s h⟩,
    by decide, ?_, ?_, by decide, by decide⟩
  · unfold DecNum.toRat
    norm_num
  · unfold DecNum.toRat
    norm_num

/-- Witness for C5 amended at the concrete slash-less string "+40.7128-074.0060". -/
theorem matchLocation_end_anchored_witness :
    matchLocation2 ("+40.7128-074.0060") = none :=
  (matchLocation_end_anchored ("+40.7128-074.0060") (by decide)).1.1

/-- Asset media type. -/
inductive AssetType where
  | image
  | video
deriving DecidableEq

/-- The asset fields the pairing logic touches: identity, owner, type, the
visibility flag, the forward live-photo link of a still asset, and the
livePhotoCID column of the asset's persisted metadata record (none when no
record has been upserted yet or the record has no identifier). -/
structure WAsset where
  id : Nat
  ownerId : Nat
  ty : AssetType
  isVisible : Bool
  livePhotoVideoId : Option Nat
  exifCID : Option String
deriving DecidableEq

/-- The stored assets together with the content-identifier column of their
metadata records. -/
abbrev World := List WAsset

/-- Modelled from the spec: AssetCore.findLivePhotoMatch is imported from the
domain library and is not part of this source file.  Per the Live-Photo Pairer
contract it searches for another asset owned by the same user with a matching
content identifier (which persists once set by a previous extraction's record
upsert) and the complementary type, excluding the current asset itself. -/
def findLivePhotoMatch (w : World) (livePhotoCID : String) (ownerId otherAssetId : Nat)
    (ty : AssetType) : Option WAsset :=
  w.find? (fun a => decide (a.id ≠ otherAssetId) && decide (a.ownerId = ownerId)
    && decide (a.ty = ty) && decide (a.exifCID = some livePhotoCID))

/-- AssetCore.save of a livePhotoVideoId patch. -/
def saveLink (w : World) (id0 : Nat) (link : Option Nat) : World :=
  w.map (fun a => if a.id = id0 then { a with livePhotoVideoId := link } else a)

/-- AssetCore.save of an isVisible patch. -/
def saveVisible (w : World) (id0 : Nat) (vis : Bool) : World :=
  w.map (fun a => if a.id = id0 then { a with isVisible := vis } else a)

/-- Effect of the metadata-record upsert (exifRepository.upsert keyed by
assetId) on the livePhotoCID column of an asset's record. -/
def upsertCID (w : World) (id0 : Nat) (cid : Option String) : World :=
  w.map (fun a => if a.id = id0 then { a with exifCID := cid } else a)

/-- Live-photo pairing block of extractExifInfo, guarded by
newExif.livePhotoCID && !asset.livePhotoVideoId: when the extracted identifier
is present and the job snapshot has no forward link yet, search for a matching
video; when found, save the still's forward link and hide the motion asset. -/
def imagePairing (w : World) (snap : WAsset) (cid : Option String) : World :=
  match cid, snap.livePhotoVideoId with
  | some c, none =>
    (match findLivePhotoMatch w c snap.ownerId snap.id .video with
     | some motionAsset =>
        saveVisible (saveLink w snap.id (some motionAsset.id)) motionAsset.id false
     | none => w)
  | _, _ => w

/-- Live-photo pairing block of extractVideoMetadata, guarded only by
newExif.livePhotoCID: search for the matching still; when found, point the
still at this video and hide this video. -/
def videoPairing (w : World) (snap : WAsset) (cid : Option String) : World :=
  match cid with
  | some c =>
    (match findLivePhotoMatch w c snap.ownerId snap.id .image with
     | some photoAsset =>
        saveVisible (saveLink w photoAsset.id (some snap.id)) snap.id false
     | none => w)
  | none => w

/-- World-level effect of one run of extractExifInfo for the job snapshot
snap whose extracted MediaGroupUUID is cid: the pairing block, then the record
upsert, which persists the identifier. -/
def extractExifPair (w : World) (snap : WAsset) (cid : Option String) : World :=
  upsertCID (imagePairing w snap cid) snap.id cid

/-- World-level effect of one run of extractVideoMetadata for the job
snapshot snap whose extracted ContentIdentifier is cid: a not-visible asset is
skipped before any work; otherwise the pairing block runs, then the record
upsert persists the identifier. -/
def extractVideoPair (w : World) (snap : WAsset) (cid : Option String) : World :=
  if snap.isVisible then upsertCID (videoPairing w snap cid) snap.id cid else w

/-- C2: for an image A and a video B owned by the same user, both files
carrying the same live-photo content identifier, with no other candidate
assets, running image extraction on A and video extraction on B in either
order reaches the same final state, in which exactly one of the two holds the
forward link (A.livePhotoVideoId = B.id while B holds none) and B is marked
not visible.  Whichever side runs second finds the identifier persisted by the
first side's record upsert. -/
theorem livePhotoPairing_order_independent (aId bId u : Nat) (cid : String)
    (hne : aId ≠ bId) :
    extractVideoPair
        (extractExifPair [⟨aId, u, .image, true, none, none⟩, ⟨bId, u, .video, true, none, none⟩]
          ⟨aId, u, .image, true, none, none⟩ (some cid))
        ⟨bId, u, .video, true, none, none⟩ (some cid) =
      extractExifPair
        (extractVideoPair [⟨aId, u, .image, true, none, none⟩, ⟨bId, u, .video, true, none, none⟩]
          ⟨bId, u, .video, true, none, none⟩ (some cid))
        ⟨aId, u, .image, true, none, none⟩ (some cid)
    ∧ extractVideoPair
        (extractExifPair [⟨aId, u, .image, true, none, none⟩, ⟨bId, u, .video, true, none, none⟩]
          ⟨aId, u, .image, true, none, none⟩ (some cid))
        ⟨bId, u, .video, true, none, none⟩ (some cid) =
      [⟨aId, u, .image, true, some bId, some cid⟩, ⟨bId, u, .video, false, none, some cid⟩] := by
  have hne2 : bId ≠ aId := Ne.symm hne
  constructor
  · simp [extractExifPair, extractVideoPair, imagePairing, videoPairing, findLivePhotoMatch,
      saveLink, saveVisible, upsertCID, List.find?, hne, hne2]
  · simp [extractExifPair, extractVideoPair, imagePairing, videoPairing, findLivePhotoMatch,
      saveLink, saveVisible, upsertCID, List.find?, hne, hne2]

/-- Witness for C2 with concrete identities 1 (image) and 2 (video). -/
theorem livePhotoPairing_order_independent_witness :
    extractVideoPair
        (extractExifPair [⟨1, 0, .image, true, none, none⟩, ⟨2, 0, .video, true, none, none⟩]
          ⟨1, 0, .image, true, none, none⟩ (some ("X")))
        ⟨2, 0, .video, true, none, none⟩ (some ("X")) =
      extractExifPair
        (extractVideoPair [⟨1, 0, .image, true, none, none⟩, ⟨2, 0, .video, true, none, none⟩]
          ⟨2, 0, .video, true, none, none⟩ (some ("X")))
        ⟨1, 0, .image, true, none, none⟩ (some ("X"))
    ∧ extractVideoPair
        (extractExifPair [⟨1, 0, .image, true, none, none⟩, ⟨2, 0, .video, true, none, none⟩]
          ⟨1, 0, .image, true, none, none⟩ (some ("X")))
        ⟨2, 0, .video, true, none, none⟩ (some ("X")) =
      [⟨1, 0, .image, true, some 2, some ("X")⟩, ⟨2, 0, .video, false, none, some ("X")⟩] :=
  livePhotoPairing_order_independent 1 2 0 ("X") (by decide)

/-- Observable events of MetadataExtractionProcessor.init: cache deletion,
pausing and resuming the metadata-extraction queue, the start and successful
end of the geocoding index build, and the error log of the catch block. -/
inductive GeoEvent where
  | cacheDeleted
  | queuePaused
  | buildStarted
  | buildFinished
  | queueResumed
  | errorLogged
deriving DecidableEq

/-- Event trace of MetadataExtractionProcessor.init: nothing happens when
reverse geocoding is disabled; otherwise the cache is optionally deleted, the
metadata-extraction queue is paused, and the index build is attempted.  On
success the queue is resumed; when the build throws, the catch block only
logs the error — the resume call is never reached. -/
def geocodingInitTrace (enabled deleteCache buildFails : Bool) : List GeoEvent :=
  if !enabled then []
  else
    (if deleteCache then [.cacheDeleted] else [])
      ++ [.queuePaused, .buildStarted]
      ++ (if buildFails then [.errorLogged] else [.buildFinished, .queueResumed])

/-- Counterexample to C3: when the index build fails, the queue is never
resumed (the resume call sits inside the try block after the build), so the
claim that the consumer is resumed after the build completes or fails is
false. -/
theorem geocodingInit_no_resume_on_failure :
    ¬ (GeoEvent.queueResumed ∈ geocodingInitTrace true false true) := by
  decide

/-- C3 amended: with reverse geocoding enabled, the queue is paused before
the index build starts; when the build succeeds the queue is resumed, and
only after the build has finished — so no extraction job can attempt a lookup
while the index is mid-rebuild; but when the build fails the error is only
logged and the queue is left paused (never resumed).  When reverse geocoding
is disabled, init does nothing. -/
theorem geocodingInit_pause_barrier (deleteCache : Bool) :
    (GeoEvent.queuePaused ∈ geocodingInitTrace true deleteCache false
      ∧ (geocodingInitTrace true deleteCache false).indexOf GeoEvent.queuePaused
          < (geocodingInitTrace true deleteCache false).indexOf GeoEvent.buildStarted
      ∧ GeoEvent.queueResumed ∈ geocodingInitTrace true deleteCache false
      ∧ (geocodingInitTrace true deleteCache false).indexOf GeoEvent.buildFinished
          < (geocodingInitTrace true deleteCache false).indexOf GeoEvent.queueResumed)
    ∧ (GeoEvent.queuePaused ∈ geocodingInitTrace true deleteCache true
      ∧ GeoEvent.queueResumed ∉ geocodingInitTrace true deleteCache true
      ∧ GeoEvent.errorLogged ∈ geocodingInitTrace true deleteCache true)
    ∧ geocodingInitTrace false deleteCache false = []
    ∧ geocodingInitTrace false deleteCache true = [] := by
  cases deleteCache <;> decide

/-- One page request of the cursor pagination in handleQueueMetadataExtraction;
none models a page whose enumeration throws. -/
abbrev AssetPage := Option (List Nat)

/-- Inner emission loop of handleQueueMetadataExtraction over the assets of
one page: queue one extraction job per asset; an emission that throws
propagates out of both loops, so the accumulated emissions stop there. -/
def emitAssets (queueFails : Nat → Bool) : List Nat → List Nat → List Nat × Bool
  | acc, [] => (acc, false)
  | acc, a :: rest =>
    if queueFails a then (acc, true) else emitAssets queueFails (acc ++ [a]) rest

/-- handleQueueMetadataExtraction: pull pages lazily and emit one job per
asset.  The whole loop sits in a single try/catch: a pagination failure or a
single emission failure both escape to the catch, which logs
"Unable to queue metadata extraction" and ends the scan.  The result is the
list of jobs emitted before any failure, paired with whether the error log ran. -/
def handleQueueMetadataExtraction (queueFails : Nat → Bool) :
    List AssetPage → List Nat → List Nat × Bool
  | [], acc => (acc, false)
  | none :: _, acc => (acc, true)
  | some pg :: rest, acc =>
    match emitAssets queueFails acc pg with
    | (acc2, true) => (acc2, true)
    | (acc2, false) => handleQueueMetadataExtraction queueFails rest acc2

/-- Counterexample to C6: in a single page [1, 2], a failing emission for
asset 1 is not isolated — no job is ever emitted for the remaining asset 2,
so the scan does not continue after an individual per-asset emission failure. -/
theorem handleQueue_emission_not_isolated :
    ¬ (2 ∈ (handleQueueMetadataExtraction (fun a => a == 1) [some [1, 2]] []).1) := by
  decide

theorem emitAssets_first_failure (queueFails : Nat → Bool) (xs : List Nat) (a : Nat)
    (ys : List Nat) (acc : List Nat) (hxs : ∀ x ∈ xs, queueFails x = false)
    (ha : queueFails a = true) :
    emitAssets queueFails acc (xs ++ a :: ys) = (acc ++ xs, true) := by
  induction xs generalizing acc with
  | nil => simp [emitAssets, ha]
  | cons x xs0 ih =>
    have hx : queueFails x = false := hxs x (by simp)
    have hxs0 : ∀ y ∈ xs0, queueFails y = false := fun y hy => hxs y (by simp [hy])
    simp [emitAssets, hx, ih (acc ++ [x]) hxs0]

/-- C6 amended: a pagination failure ends the scan with the error logged; but
an individual per-asset emission failure is not isolated either — it escapes
the same try/catch, so the scan stops with only the previously emitted jobs,
the remaining assets of the page and all later pages are skipped, and the
same error log is the only signal. -/
theorem handleQueue_any_failure_fatal (queueFails : Nat → Bool) (xs : List Nat) (a : Nat)
    (ys : List Nat) (rest : List AssetPage) (acc : List Nat)
    (hxs : ∀ x ∈ xs, queueFails x = false) (ha : queueFails a = true) :
    handleQueueMetadataExtraction queueFails (some (xs ++ a :: ys) :: rest) acc = (acc ++ xs, true)
    ∧ handleQueueMetadataExtraction queueFails (none :: rest) acc = (acc, true) := by
  constructor
  · simp [handleQueueMetadataExtraction, emitAssets_first_failure queueFails xs a ys acc hxs ha]
  · rfl

/-- Witness for C6 amended: page [7, 1, 2] with an emission failure at asset 1
emits only the job for 7 and stops with the error logged. -/
theorem handleQueue_any_failure_fatal_witness :
    handleQueueMetadataExtraction (fun a => a == 1) [some ([7] ++ 1 :: [2])] [] = ([] ++ [7], true)
    ∧ handleQueueMetadataExtraction (fun a => a == 1) [none] [] = ([], true) :=
  handleQueue_any_failure_fatal (fun a => a == 1) [7] 1 [2] [] []
    (by intro x hx; simp at hx; simp [hx]) (by decide)

/-- A JavaScript Date as constructed by the processor: from a date string via
new Date(s), or from the instant of a structured ExifDateTime via toDate(). -/
inductive JSDate where
  | fromStr (s : String)
  | fromEDT (instant : Int)
deriving DecidableEq

/-- exifToDate closure of extractExifInfo: a falsy input (null, undefined or
the empty string) yields null; a string yields new Date(string); a structured
ExifDateTime yields its instant.  Date tags at its call sites are strings or
structured dates; other tag shapes do not occur there and are mapped to null. -/
def exifToDate : Option TagValue → Option JSDate
  | none => none
  | some (.str s) => if s = "" then none else some (.fromStr s)
  | some (.edt i _) => some (.fromEDT i)
  | some (.num _) => none
  | some (.arr _) => none

/-- exifTimeZone closure of extractExifInfo: only a structured ExifDateTime
carries a zone (exifDate.zone ?? null); falsy inputs and plain strings yield
null. -/
def exifTimeZone : Option TagValue → Option String
  | some (.edt _ z) => z
  | _ => none

/-- JavaScript toString of a tag value, used for Orientation
(getExifProperty('Orientation')?.toString()); the numbers stringified here
are integers, for which toString on the rational model agrees with JS. -/
def tagToString : TagValue → String
  | .str s => s
  | .num q => toString q
  | .arr l => String.intercalate (",") (l.map toString)
  | .edt i _ => toString i

/-- Magnitude part of JavaScript parseFloat: a leading digit run, optionally
followed by a dot and a fraction digit run; anything after is ignored; no
leading digits yields NaN (the leading-digit forms are the ones that occur
for FocalLength values). -/
def parseFloatMag (l : List Char) : JSNum :=
  let ip := leadingDigits l
  if ip.isEmpty then .nan
  else
    match l.drop ip.length with
    | '.' :: rest2 =>
      .num ((digitsToNat ip : Rat)
        + (digitsToNat (leadingDigits rest2) : Rat) / ((10 : Rat) ^ (leadingDigits rest2).length))
    | _ => .num (digitsToNat ip)

/-- JavaScript parseFloat of a tag value (the argument is coerced to a string
first): numbers parse to themselves, strings through the decimal form above,
an array stringifies comma-separated so its first element's value results. -/
def jsParseFloat : TagValue → JSNum
  | .num q => .num q
  | .str s =>
    (match s.toList with
     | '+' :: rest => parseFloatMag rest
     | '-' :: rest =>
       (match parseFloatMag rest with
        | .num q => .num (-q)
        | v => v)
     | rest => parseFloatMag rest)
  | .arr [] => .nan
  | .arr (q :: _) => .num q
  | .edt _ _ => .nan

/-- The metadata record (ExifEntity) as written by the processor: exactly the
fields assigned by extractExifInfo and extractVideoMetadata. -/
structure ExifRec where
  assetId : Nat
  fileSizeInByte : Option Int
  make : Option TagValue
  model : Option TagValue
  exifImageHeight : Option TagValue
  exifImageWidth : Option TagValue
  exposureTime : Option TagValue
  orientation : Option String
  dateTimeOriginal : Option JSDate
  modifyDate : Option JSDate
  timeZone : Option String
  lensModel : Option TagValue
  fNumber : Option TagValue
  focalLength : Option JSNum
  iso : Option TagValue
  latitude : Option TagValue
  longitude : Option TagValue
  livePhotoCID : Option TagValue
  city : Option String
  state : Option String
  country : Option String
  fps : Option JSNum
deriving DecidableEq

/-- The per-asset inputs of one image-extraction run: the two tag sources,
the filesystem timestamps of the asset, the stat size, whether a sidecar path
is recorded, and what a sharp probe of the image header would report. -/
structure ExtractionInput where
  sidecarData : String → Option TagValue
  mediaData : String → Option TagValue
  fileCreatedAtFs : String
  fileModifiedAtFs : String
  statSize : Int
  hasSidecar : Bool
  sharpHeight : Option Int
  sharpWidth : Option Int
  sharpOrientation : Option Int

/-- Record construction of extractExifInfo (the newExif assignments, source
lines 156-178), field by field from the merged tag sources; city, state,
country and fps start null on the image path. -/
def buildExif (assetId : Nat) (inp : ExtractionInput) : ExifRec :=
  let dateTag := getExifPropertyOrFallback inp.sidecarData inp.mediaData
    ["DateTimeOriginal", "CreateDate"] (.str inp.fileCreatedAtFs)
  let modifyTag := getExifPropertyOrFallback inp.sidecarData inp.mediaData
    ["ModifyDate"] (.str inp.fileModifiedAtFs)
  let focal := getExifProperty inp.sidecarData inp.mediaData ["FocalLength"]
  let iso0 := getExifProperty inp.sidecarData inp.mediaData ["ISO"]
  { assetId := assetId
    fileSizeInByte := some inp.statSize
    make := getExifProperty inp.sidecarData inp.mediaData ["Make"]
    model := getExifProperty inp.sidecarData inp.mediaData ["Model"]
    exifImageHeight := getExifProperty inp.sidecarData inp.mediaData
      ["ExifImageHeight", "ImageHeight"]
    exifImageWidth := getExifProperty inp.sidecarData inp.mediaData
      ["ExifImageWidth", "ImageWidth"]
    exposureTime := getExifProperty inp.sidecarData inp.mediaData ["ExposureTime"]
    orientation := (getExifProperty inp.sidecarData inp.mediaData ["Orientation"]).map tagToString
    dateTimeOriginal := exifToDate (some dateTag)
    modifyDate := exifToDate (some modifyTag)
    timeZone := exifTimeZone (some dateTag)
    lensModel := getExifProperty inp.sidecarData inp.mediaData ["LensModel"]
    fNumber := getExifProperty inp.sidecarData inp.mediaData ["FNumber"]
    focalLength := if jsTruthy focal then focal.map jsParseFloat else none
    iso := (match iso0 with
      | some (.arr l) => l.head?.map TagValue.num
      | _ => if jsTruthy iso0 then iso0 else none)
    latitude := getExifProperty inp.sidecarData inp.mediaData ["GPSLatitude"]
    longitude := getExifProperty inp.sidecarData inp.mediaData ["GPSLongitude"]
    livePhotoCID := getExifProperty inp.sidecarData inp.mediaData ["MediaGroupUUID"]
    city := none
    state := none
    country := none
    fps := none }

/-- JavaScript truthiness of an optional string (empty string is falsy). -/
def jsTruthyStr : Option String → Bool
  | none => false
  | some s => !(s == "")

/-- Condition of the sharp fallback in extractExifInfo: width, height or
orientation is falsy after tag merging. -/
def needsSharpFill (e : ExifRec) : Bool :=
  !jsTruthy e.exifImageHeight || !jsTruthy e.exifImageWidth || !jsTruthyStr e.orientation

/-- Sharp dimension fallback of extractExifInfo: when needed, probe the image
header and fill only the fields that are strictly null (=== null), where
metadata.height || null maps a 0 from the probe to null and the orientation is
filled whenever the probe defines it. -/
def sharpFill (sharpHeight sharpWidth sharpOrientation : Option Int) (e : ExifRec) : ExifRec :=
  if needsSharpFill e then
    let e1 := if e.exifImageHeight = none then
        { e with exifImageHeight := (match sharpHeight with
            | some n => if n = 0 then none else some (.num n)
            | none => none) }
      else e
    let e2 := if e1.exifImageWidth = none then
        { e1 with exifImageWidth := (match sharpWidth with
            | some n => if n = 0 then none else some (.num n)
            | none => none) }
      else e1
    if e2.orientation = none then
      { e2 with orientation := (match sharpOrientation with
          | some o => some (toString o)
          | none => none) }
    else e2
  else e

/-- applyReverseGeocoding: when reverse geocoding is enabled and both
longitude and latitude are truthy (non-null, nonzero), look up
country/state/city and set them; a lookup failure (geocode returning none)
only logs a warning and leaves the fields unchanged; otherwise the record is
returned untouched. -/
def applyReverseGeocoding (reverseGeocodingEnabled : Bool)
    (geocode : TagValue → TagValue → Option (String × String × String))
    (e : ExifRec) : ExifRec :=
  if reverseGeocodingEnabled && jsTruthy e.longitude && jsTruthy e.latitude then
    match e.latitude, e.longitude with
    | some la, some lo =>
      (match geocode la lo with
       | some (country0, state0, city0) =>
          { e with country := some country0, state := some state0, city := some city0 }
       | none => e)
    | _, _ => e
  else e

/-- Timezone-from-coordinates step of extractVideoMetadata: when both
longitude and latitude are truthy, tz_lookup(latitude, longitude) sets the
timezone; a thrown lookup (none) only logs a warning and leaves the field
unchanged. -/
def applyTzFromCoords (tzLookup : TagValue → TagValue → Option String) (e : ExifRec) : ExifRec :=
  if jsTruthy e.longitude && jsTruthy e.latitude then
    match e.latitude, e.longitude with
    | some la, some lo =>
      (match tzLookup la lo with
       | some z => { e with timeZone := some z }
       | none => e)
    | _, _ => e
  else e

/-- C9: whenever the extracted latitude or longitude is null or exactly 0,
reverse geocoding is skipped and the record — in particular its country,
state and city fields — is unchanged, even when reverse geocoding is enabled
and the other coordinate is present; the video timezone-from-coordinates
lookup is skipped under the same condition. -/
theorem reverseGeocoding_skips_zero_or_null (enabled : Bool)
    (geocode : TagValue → TagValue → Option (String × String × String))
    (tzLookup : TagValue → TagValue → Option String) (e : ExifRec)
    (h : e.latitude = none ∨ e.latitude = some (.num 0)
      ∨ e.longitude = none ∨ e.longitude = some (.num 0)) :
    applyReverseGeocoding enabled geocode e = e ∧ applyTzFromCoords tzLookup e = e := by
  rcases h with h | h | h | h <;>
    simp [applyReverseGeocoding, applyTzFromCoords, jsTruthy, h]

/-- Witness for C9: latitude exactly 0 with a present longitude, geocoding
enabled and both lookups defined — the record still comes back unchanged. -/
theorem reverseGeocoding_skips_zero_or_null_witness :
    applyReverseGeocoding true (fun _ _ => some (("DE"), ("BE"), ("Berlin")))
      { assetId := 1, fileSizeInByte := none, make := none, model := none,
        exifImageHeight := none, exifImageWidth := none, exposureTime := none,
        orientation := none, dateTimeOriginal := none, modifyDate := none,
        timeZone := none, lensModel := none, fNumber := none, focalLength := none,
        iso := none, latitude := some (.num 0), longitude := some (.num 13),
        livePhotoCID := none, city := none, state := none, country := none, fps := none } =
      { assetId := 1, fileSizeInByte := none, make := none, model := none,
        exifImageHeight := none, exifImageWidth := none, exposureTime := none,
        orientation := none, dateTimeOriginal := none, modifyDate := none,
        timeZone := none, lensModel := none, fNumber := none, focalLength := none,
        iso := none, latitude := some (.num 0), longitude := some (.num 13),
        livePhotoCID := none, city := none, state := none, country := none, fps := none } :=
  (reverseGeocoding_skips_zero_or_null true (fun _ _ => some (("DE"), ("BE"), ("Berlin")))
    (fun _ _ => some ("Europe/Berlin"))
    { assetId := 1, fileSizeInByte := none, make := none, model := none,
      exifImageHeight := none, exifImageWidth := none, exposureTime := none,
      orientation := none, dateTimeOriginal := none, modifyDate := none,
      timeZone := none, lensModel := none, fNumber := none, focalLength := none,
      iso := none, latitude := some (.num 0), longitude := some (.num 13),
      livePhotoCID := none, city := none, state := none, country := none, fps := none }
    (Or.inr (Or.inl rfl))).1

/-- exifRepository.upsert with conflictPaths ['assetId']: the whole record is
written; when a record with the same assetId exists it is replaced wholesale
(never patch-merged), otherwise the record is inserted. -/
def upsertExif (store : List ExifRec) (r : ExifRec) : List ExifRec :=
  if store.any (fun e => e.assetId == r.assetId)
  then store.map (fun e => if e.assetId == r.assetId then r else e)
  else store ++ [r]

/-- The store invariant: record keys (asset identities) are pairwise distinct. -/
def keysDistinct (store : List ExifRec) : Prop :=
  store.Pairwise (fun a b => a.assetId ≠ b.assetId)

theorem upsertExif_map_id (store : List ExifRec) (r : ExifRec)
    (hfalse : ∀ e ∈ store, ¬ ((e.assetId == r.assetId) = true)) :
    store.map (fun e => if e.assetId == r.assetId then r else e) = store := by
  induction store with
  | nil => rfl
  | cons x xs ih =>
    have hx : ¬ ((x.assetId == r.assetId) = true) := hfalse x (by simp)
    simp only [List.map_cons, if_neg hx]
    rw [ih (fun e he => hfalse e (by simp [he]))]

theorem upsertExif_self_idem (store : List ExifRec) (r : ExifRec) :
    upsertExif (upsertExif store r) r = upsertExif store r := by
  unfold upsertExif
  by_cases h : store.any (fun e => e.assetId == r.assetId) = true
  · simp only [h, if_true]
    have hany : (store.map (fun e => if e.assetId == r.assetId then r else e)).any
        (fun e => e.assetId == r.assetId) = true := by
      rw [List.any_eq_true] at h ⊢
      obtain ⟨x, hx, hbeq⟩ := h
      refine ⟨r, ?_, by simp⟩
      rw [List.mem_map]
      exact ⟨x, hx, by simp [hbeq]⟩
    simp only [hany, if_true]
    rw [List.map_map]
    have hff : ((fun e => if e.assetId == r.assetId then r else e)
        ∘ (fun e => if e.assetId == r.assetId then r else e))
        = (fun e => if e.assetId == r.assetId then r else e) := by
      funext e
      by_cases he : (e.assetId == r.assetId) = true <;> simp [Function.comp, he]
    rw [hff]
  · rw [if_neg h]
    have hfalse : store.any (fun e => e.assetId == r.assetId) = false :=
      Bool.not_eq_true _ |>.mp h
    have hany2 : (store ++ [r]).any (fun e => e.assetId == r.assetId) = true := by
      simp [List.any_append]
    rw [if_pos hany2, List.map_append]
    rw [List.any_eq_false] at hfalse
    rw [upsertExif_map_id store r hfalse]
    simp

theorem upsertExif_keysDistinct (store : List ExifRec) (r : ExifRec)
    (h : keysDistinct store) : keysDistinct (upsertExif store r) := by
  unfold upsertExif keysDistinct
  by_cases hany : store.any (fun e => e.assetId == r.assetId) = true
  · rw [if_pos hany]
    have hkey : ∀ e : ExifRec, ((if e.assetId == r.assetId then r else e)).assetId = e.assetId := by
      intro e
      by_cases he : (e.assetId == r.assetId) = true
      · rw [if_pos he]
        have he2 : e.assetId = r.assetId := by simpa using he
        exact he2.symm
      · rw [if_neg he]
    exact List.Pairwise.map _ (fun a b hab => by rw [hkey a, hkey b]; exact hab) h
  · rw [if_neg hany]
    have hfalse : store.any (fun e => e.assetId == r.assetId) = false :=
      Bool.not_eq_true _ |>.mp hany
    rw [List.any_eq_false] at hfalse
    rw [List.pairwise_append]
    refine ⟨h, List.pairwise_singleton _ _, ?_⟩
    intro a ha b hb
    have hb2 : b = r := by simpa using hb
    subst hb2
    have := hfalse a ha
    simpa using this

theorem countKey_le_one (store : List ExifRec) (h : keysDistinct store) (b : Nat) :
    (store.filter (fun e => e.assetId == b)).length ≤ 1 := by
  induction store with
  | nil => simp
  | cons x xs ih =>
    rw [keysDistinct, List.pairwise_cons] at h
    by_cases hx : (x.assetId == b) = true
    · have hxs : xs.filter (fun e => e.assetId == b) = [] := by
        rw [List.filter_eq_nil_iff]
        intro e he
        have hne := h.1 e he
        have hxb : x.assetId = b := by simpa using hx
        simp only [beq_iff_eq]
        exact fun heb => hne (hxb.trans heb.symm)
      simp [List.filter_cons, hx, hxs]
    · simp only [List.filter_cons, hx]
      simpa using ih h.2

/-- Full record persistence of one image-extraction run: build the record
from the unchanged inputs, apply reverse geocoding and the sharp dimension
fallback, and upsert it into the store keyed by asset identity. -/
def runExtraction (assetId : Nat) (inp : ExtractionInput) (enabled : Bool)
    (geocode : TagValue → TagValue → Option (String × String × String))
    (store : List ExifRec) : List ExifRec :=
  upsertExif store (sharpFill inp.sharpHeight inp.sharpWidth inp.sharpOrientation
    (applyReverseGeocoding enabled geocode (buildExif assetId inp)))

/-- C8: running metadata extraction twice on the same unchanged asset (same
tag sources, same filesystem data, same probe results) leaves the metadata
store exactly as after one run — the wholesale upsert keyed by asset identity
makes the second run a no-op in effect — and the store holds at most one
record per asset at any time. -/
theorem extraction_idempotent (assetId : Nat) (inp : ExtractionInput) (enabled : Bool)
    (geocode : TagValue → TagValue → Option (String × String × String))
    (store : List ExifRec) (h : keysDistinct store) :
    runExtraction assetId inp enabled geocode (runExtraction assetId inp enabled geocode store)
        = runExtraction assetId inp enabled geocode store
    ∧ keysDistinct (runExtraction assetId inp enabled geocode store)
    ∧ ∀ b, ((runExtraction assetId inp enabled geocode store).filter
        (fun e => e.assetId == b)).length ≤ 1 := by
  refine ⟨upsertExif_self_idem store _, upsertExif_keysDistinct store _ h, ?_⟩
  intro b
  exact countKey_le_one _ (upsertExif_keysDistinct store _ h) b

/-- One concrete extraction input: no tags, no sidecar, no probe data. -/
def sampleInput : ExtractionInput :=
  ⟨fun _ => none, fun _ => none, "2020-01-01T00:00:00Z", "2020-01-02T00:00:00Z",
    42, false, none, none, none⟩

/-- Witness for C8 on the empty store with the concrete sample input. -/
theorem extraction_idempotent_witness :
    runExtraction 1 sampleInput false (fun _ _ => none)
        (runExtraction 1 sampleInput false (fun _ _ => none) [])
      = runExtraction 1 sampleInput false (fun _ _ => none) [] :=
  (extraction_idempotent 1 sampleInput false (fun _ _ => none) [] List.Pairwise.nil).1

/-- Observable side effects of one extraction job handler. -/
inductive Effect where
  | readOriginalFile
  | readSidecarFile
  | statOriginalFile
  | pairingSearch
  | probeImageHeader
  | probeVideoFile
  | recordUpserted
  | assetSaved
  | followUpQueued
  | errorLogged
deriving DecidableEq

/-- Failure injection for extractExifInfo: which awaited step inside the try
block throws — the sharp probe of the image header, the record upsert, or the
asset save that follows it. -/
inductive FailPoint where
  | noFail
  | atSharpProbe
  | atUpsert
  | atAssetSave
deriving DecidableEq

/-- Result of one handler run: the asset world, the metadata store, the
follow-up jobs queued (by asset identity), the effect trace, and whether the
catch block logged an error.  The handler itself always returns normally. -/
structure JobOutcome where
  world : World
  store : List ExifRec
  queued : List Nat
  trace : List Effect
  errLogged : Bool
deriving DecidableEq

/-- Content identifier of a record as used by the pairing guards: the
MediaGroupUUID and ContentIdentifier tags are strings; a missing or empty
value is falsy and disables pairing. -/
def cidOf : Option TagValue → Option String
  | some (.str s) => if s = "" then none else some s
  | _ => none

/-- extractExifInfo with failure injection at its three fallible steps after
the pairing block.  The handler has no visibility guard and runs for any job
snapshot.  Steps in source order: read the embedded tags (and the sidecar
tags when a sidecar path is recorded), stat the file, build the record, run
the pairing block — whose two saves are persisted immediately — apply reverse
geocoding, probe the image header with sharp when dimensions or orientation
are missing, upsert the whole record, save the asset's fileCreatedAt, and
queue the follow-up storage-migration job.  A throw lands in the catch block,
which only logs; nothing done before the throw is rolled back. -/
def runExtractExif (fp : FailPoint) (snap : WAsset) (inp : ExtractionInput) (enabled : Bool)
    (geocode : TagValue → TagValue → Option (String × String × String))
    (w : World) (store : List ExifRec) : JobOutcome :=
  let readTrace := [Effect.readOriginalFile]
    ++ (if inp.hasSidecar then [Effect.readSidecarFile] else []) ++ [Effect.statOriginalFile]
  let r0 := buildExif snap.id inp
  let cid := cidOf r0.livePhotoCID
  let pairTrace := (match cid, snap.livePhotoVideoId with
    | some _, none => [Effect.pairingSearch]
    | _, _ => [])
  let w1 := imagePairing w snap cid
  let r1 := applyReverseGeocoding enabled geocode r0
  if needsSharpFill r1 ∧ fp = FailPoint.atSharpProbe then
    ⟨w1, store, [], readTrace ++ pairTrace ++ [.probeImageHeader, .errorLogged], true⟩
  else
    let r2 := sharpFill inp.sharpHeight inp.sharpWidth inp.sharpOrientation r1
    let probeTrace := if needsSharpFill r1 then [Effect.probeImageHeader] else []
    if fp = FailPoint.atUpsert then
      ⟨w1, store, [], readTrace ++ pairTrace ++ probeTrace ++ [.errorLogged], true⟩
    else
      let store2 := upsertExif store r2
      let w2 := upsertCID w1 snap.id cid
      if fp = FailPoint.atAssetSave then
        ⟨w2, store2, [], readTrace ++ pairTrace ++ probeTrace
          ++ [.recordUpserted, .errorLogged], true⟩
      else
        ⟨w2, store2, [snap.id], readTrace ++ pairTrace ++ probeTrace
          ++ [.recordUpserted, .assetSaved, .followUpQueued], false⟩

/-- The ffprobe tags the processor reads from format.tags. -/
structure VideoTags where
  quicktimeCreationDate : Option String
  creationTime : Option String
  location : Option String
  iso6709Location : Option String
deriving DecidableEq

/-- One ffprobe stream, restricted to the fields the processor reads. -/
structure VideoStream where
  codecType : String
  width : Option Int
  height : Option Int
  rotation : Option TagValue
  rFrameRate : Option String
deriving DecidableEq

/-- The ffprobe format data the processor reads. -/
structure FfprobeData where
  size : Option Int
  tags : Option VideoTags
  streams : List VideoStream
deriving DecidableEq

/-- fileCreatedAt selection of extractVideoMetadata: the Apple creation date
tag wins, then creation_time, else the snapshot's filesystem timestamp. -/
def videoFileCreatedAt (snapCreatedAt : Option String) (tags : Option VideoTags) :
    Option String :=
  match tags with
  | none => snapCreatedAt
  | some t =>
    if jsTruthyStr t.quicktimeCreationDate then t.quicktimeCreationDate
    else if jsTruthyStr t.creationTime then t.creationTime
    else snapCreatedAt

/-- Record initialisation of extractVideoMetadata (the newExif assignments):
size || null, a date only when fileCreatedAt is truthy, the ContentIdentifier
(|| null), and explicit nulls everywhere else. -/
def buildVideoExif (assetId : Nat) (fileCreatedAt : Option String) (sizeBytes : Option Int)
    (contentIdentifier : Option TagValue) : ExifRec :=
  { assetId := assetId
    fileSizeInByte := (match sizeBytes with
      | some n => if n = 0 then none else some n
      | none => none)
    make := none
    model := none
    exifImageHeight := none
    exifImageWidth := none
    exposureTime := none
    orientation := none
    dateTimeOriginal := (match fileCreatedAt with
      | some s => if s = "" then none else some (.fromStr s)
      | none => none)
    modifyDate := none
    timeZone := none
    lensModel := none
    fNumber := none
    focalLength := none
    iso := none
    latitude := none
    longitude := none
    livePhotoCID := (match contentIdentifier with
      | some v => if jsTruthy (some v) then some v else none
      | none => none)
    city := none
    state := none
    country := none
    fps := none }

/-- GPS step of extractVideoMetadata: when the location tag is truthy its
two-group pattern is tried (a failed match leaves the coordinates null and the
other encoding is not tried); otherwise, when the ISO6709 tag is truthy, the
three-group pattern is tried. -/
def applyVideoLocation (tags : Option VideoTags) (e : ExifRec) : ExifRec :=
  match tags with
  | none => e
  | some t =>
    if jsTruthyStr t.location then
      match t.location with
      | some s =>
        (match matchLocation2 s with
         | some (la, lo) =>
            { e with latitude := some (.num la.toRat), longitude := some (.num lo.toRat) }
         | none => e)
      | none => e
    else if jsTruthyStr t.iso6709Location then
      match t.iso6709Location with
      | some s =>
        (match matchLocation3 s with
         | some (la, lo) =>
            { e with latitude := some (.num la.toRat), longitude := some (.num lo.toRat) }
         | none => e)
      | none => e
    else e

/-- Per-stream loop of extractVideoMetadata: every stream whose codec_type is
video overwrites the dimensions (stream.width || null), the orientation
(stream.rotation stringified when a string or number, null otherwise) and,
when r_frame_rate is truthy and splits into exactly two parts, the rounded
frame rate. -/
def applyStream (e : ExifRec) (st : VideoStream) : ExifRec :=
  if st.codecType = "video" then
    { e with
      exifImageWidth := (match st.width with
        | some n => if n = 0 then none else some (.num n)
        | none => none)
      exifImageHeight := (match st.height with
        | some n => if n = 0 then none else some (.num n)
        | none => none)
      orientation := (match st.rotation with
        | some (.str s) => some s
        | some (.num q) => some (tagToString (.num q))
        | _ => none)
      fps := (match computeFps st.rFrameRate with
        | some v => some v
        | none => e.fps) }
  else e

/-- extractVideoMetadata: a not-visible job snapshot returns before any work
(no probe, no read, no mutation, no job).  Otherwise ffprobe runs (a probe
failure is caught and logged and abandons the asset), the record is built,
the pairing block runs and persists its saves, the location, timezone and
reverse-geocoding steps and the stream loop fill the record, and the record
is upserted before the asset save and the follow-up job. -/
def runExtractVideo (snap : WAsset) (probeResult : Option FfprobeData)
    (contentIdentifier : Option TagValue) (enabled : Bool)
    (geocode : TagValue → TagValue → Option (String × String × String))
    (tzLookup : TagValue → TagValue → Option String)
    (snapFileCreatedAt : Option String)
    (w : World) (store : List ExifRec) : JobOutcome :=
  if snap.isVisible = false then ⟨w, store, [], [], false⟩
  else
    match probeResult with
    | none => ⟨w, store, [], [.probeVideoFile, .errorLogged], true⟩
    | some data =>
      let createdAt := videoFileCreatedAt snapFileCreatedAt data.tags
      let r0 := buildVideoExif snap.id createdAt data.size contentIdentifier
      let cid := cidOf r0.livePhotoCID
      let w1 := videoPairing w snap cid
      let r1 := applyVideoLocation data.tags r0
      let r2 := applyTzFromCoords tzLookup r1
      let r3 := applyReverseGeocoding enabled geocode r2
      let r4 := data.streams.foldl applyStream r3
      let store2 := upsertExif store r4
      let w2 := upsertCID w1 snap.id cid
      ⟨w2, store2, [snap.id], [.probeVideoFile, .readOriginalFile, .recordUpserted,
        .assetSaved, .followUpQueued], false⟩

/-- Job kinds handleSidecarSync may emit. -/
inductive EmittedJob where
  | exifExtraction
  | videoMetadataExtraction
deriving DecidableEq

/-- handleSidecarSync: a not-visible asset is skipped; otherwise the matching
extraction job is queued for the asset. -/
def handleSidecarSync (asset : WAsset) : List EmittedJob :=
  if asset.isVisible = false then []
  else [if asset.ty = .video then .videoMetadataExtraction else .exifExtraction]

/-- Counterexample to C7: extractExifInfo has no visibility guard — for a
not-visible image asset the handler still reads the original file and upserts
a metadata record instead of returning immediately before any work. -/
theorem extractExif_ignores_visibility :
    Effect.readOriginalFile ∈ (runExtractExif .noFail ⟨1, 0, .image, false, none, none⟩
        sampleInput false (fun _ _ => none) [⟨1, 0, .image, false, none, none⟩] []).trace
    ∧ (runExtractExif .noFail ⟨1, 0, .image, false, none, none⟩
        sampleInput false (fun _ _ => none) [⟨1, 0, .image, false, none, none⟩] []).store ≠ [] := by
  constructor
  · decide
  · decide

/-- C7 amended: the video-extraction and sidecar-sync handlers return
immediately for a not-visible asset, before performing any work — no probe,
no read, no record upsert, no asset mutation, no queued job; but the image
EXIF-extraction handler has no visibility guard and processes a not-visible
asset anyway (it reads the file and writes a metadata record). -/
theorem visibility_guard_coverage (id0 owner : Nat) (ty0 : AssetType) (lk : Option Nat)
    (ec : Option String) (probeResult : Option FfprobeData)
    (contentIdentifier : Option TagValue) (enabled : Bool)
    (geocode : TagValue → TagValue → Option (String × String × String))
    (tzLookup : TagValue → TagValue → Option String) (sfc : Option String)
    (w : World) (store : List ExifRec) :
    runExtractVideo ⟨id0, owner, .video, false, lk, ec⟩ probeResult contentIdentifier enabled
        geocode tzLookup sfc w store = ⟨w, store, [], [], false⟩
    ∧ handleSidecarSync ⟨id0, owner, ty0, false, lk, ec⟩ = []
    ∧ (runExtractExif .noFail ⟨1, 0, .image, false, none, none⟩ sampleInput false
        (fun _ _ => none) [] []).store ≠ [] := by
  refine ⟨rfl, rfl, by decide⟩

/-- Counterexample to C10: when the asset save — the step after the record
upsert — throws, a metadata record has already been written (the outcome
store is nonempty, where C10 claims no record is written on a later-step
failure); the handler does log the error and queues no follow-up job. -/
theorem extractExif_record_written_on_save_failure :
    (runExtractExif .atAssetSave ⟨1, 0, .image, true, none, none⟩ sampleInput false
        (fun _ _ => none) [] []).store ≠ []
    ∧ (runExtractExif .atAssetSave ⟨1, 0, .image, true, none, none⟩ sampleInput false
        (fun _ _ => none) [] []).errLogged = true
    ∧ (runExtractExif .atAssetSave ⟨1, 0, .image, true, none, none⟩ sampleInput false
        (fun _ _ => none) [] []).queued = [] := by
  refine ⟨by decide, by decide, by decide⟩

/-- C10 amended: in extractExifInfo the live-photo pairing mutations are
persisted before the metadata-record upsert and are never rolled back by a
later failure; on a failure of the image-header probe or of the upsert itself
no metadata record is written, while on a failure of the asset save the
upsert has already happened and the record remains written; in every failure
case no follow-up job is queued and the handler returns normally with the
error only logged. -/
theorem extractExif_failure_effects (snap : WAsset) (inp : ExtractionInput) (enabled : Bool)
    (geocode : TagValue → TagValue → Option (String × String × String))
    (w : World) (store : List ExifRec) :
    (runExtractExif .atUpsert snap inp enabled geocode w store).world
        = imagePairing w snap (cidOf (buildExif snap.id inp).livePhotoCID)
    ∧ (runExtractExif .atUpsert snap inp enabled geocode w store).store = store
    ∧ (runExtractExif .atUpsert snap inp enabled geocode w store).queued = []
    ∧ (runExtractExif .atUpsert snap inp enabled geocode w store).errLogged = true
    ∧ (runExtractExif .atAssetSave snap inp enabled geocode w store).world
        = upsertCID (imagePairing w snap (cidOf (buildExif snap.id inp).livePhotoCID))
            snap.id (cidOf (buildExif snap.id inp).livePhotoCID)
    ∧ (runExtractExif .atAssetSave snap inp enabled geocode w store).store
        = upsertExif store (sharpFill inp.sharpHeight inp.sharpWidth inp.sharpOrientation
            (applyReverseGeocoding enabled geocode (buildExif snap.id inp)))
    ∧ (runExtractExif .atAssetSave snap inp enabled geocode w store).queued = []
    ∧ (runExtractExif .atAssetSave snap inp enabled geocode w store).errLogged = true
    ∧ (needsSharpFill (applyReverseGeocoding enabled geocode (buildExif snap.id inp)) = true →
        (runExtractExif .atSharpProbe snap inp enabled geocode w store).world
            = imagePairing w snap (cidOf (buildExif snap.id inp).livePhotoCID)
        ∧ (runExtractExif .atSharpProbe snap inp enabled geocode w store).store = store
        ∧ (runExtractExif .atSharpProbe snap inp enabled geocode w store).queued = []
        ∧ (runExtractExif .atSharpProbe snap inp enabled geocode w store).errLogged = true) := by
  refine ⟨?_, ?_, ?_, ?_, ?_, ?_, ?_, ?_, ?_⟩
  · simp [runExtractExif]
  · simp [runExtractExif]
  · simp [runExtractExif]
  · simp [runExtractExif]
  · simp [runExtractExif]
  · simp [runExtractExif]
  · simp [runExtractExif]
  · simp [runExtractExif]
  · intro hns
    refine ⟨?_, ?_, ?_, ?_⟩ <;> simp [runExtractExif, hns]

/-- Witness for C10 amended at a concrete asset whose record lacks dimensions
(so the sharp probe runs): the probe failure leaves the store untouched while
the asset-save failure leaves the record written. -/
theorem extractExif_failure_effects_witness :
    (runExtractExif .atSharpProbe ⟨1, 0, .image, true, none, none⟩ sampleInput false
        (fun _ _ => none) [] []).store = []
    ∧ (runExtractExif .atAssetSave ⟨1, 0, .image, true, none, none⟩ sampleInput false
        (fun _ _ => none) [] []).errLogged = true :=
  ⟨((extractExif_failure_effects ⟨1, 0, .image, true, none, none⟩ sampleInput false
      (fun _ _ => none) [] []).2.2.2.2.2.2.2.2 (by decide)).2.1,
    (extractExif_failure_effects ⟨1, 0, .image, true, none, none⟩ sampleInput false
      (fun _ _ => none) [] []).2.2.2.2.2.2.2.1⟩
